import Mathlib

/-!
Shallow embedding of `packages/wmr/src/lib/net-utils.js` (wmr dev-server
networking helpers) and proofs about it.

The OS networking stack is modelled as an explicit environment: a function
from a port value to the outcome of attempting to bind a listening socket on
that port (`none` = bind succeeds, `some code` = bind fails with the given
error code, e.g. "EADDRINUSE").

JavaScript numbers that matter here are integers or NaN, modelled as
`Option Int` (`none` = NaN).
-/

namespace NetUtils

/-- JsNum models a JavaScript number restricted to the values arising here:
`some n` is the integer `n`, `none` is NaN. -/
abbrev JsNum := Option Int

/-- JsVal models a JavaScript value that can flow into these helpers:
a number or a string. -/
inductive JsVal
| num (n : Int)
| str (s : String)
deriving DecidableEq, Repr

/-- BindEnv models the OS response to `net.createServer().listen({port})`:
`none` means the bind succeeds, `some code` means the listen attempt emits an
error with code `code` (such as "EADDRINUSE" or "EACCES"). The `Option Int`
argument is the port value passed to listen (`none` = the NaN number). -/
abbrev BindEnv := JsNum → Option String

/-- Embedding of `isPortFree(port)` with the promise awaited, as its callers in
`getPort` use it: bind success resolves to `true`; an error with code
"EADDRINUSE" is caught and yields `false`; any other error is re-thrown
(`Except.error`). -/
def isPortFree (env : BindEnv) (port : JsNum) : Except String Bool :=
  match env port with
  | none => Except.ok true
  | some code => if code ≠ "EADDRINUSE" then Except.error code else Except.ok false

/-- JsTestVal models the JavaScript values appearing in boolean test position
in this file: a pending Promise object (what calling an async function yields
before any await) or a boolean. -/
inductive JsTestVal
| promiseObj
| boolVal (b : Bool)
deriving DecidableEq, Repr

/-- jsTruthy is JavaScript truthiness on `JsTestVal`: every object, and in
particular every Promise object, is truthy. -/
def jsTruthy : JsTestVal → Bool
| JsTestVal.promiseObj => true
| JsTestVal.boolVal b => b

/-- Value of the expression `isPortFree(port)` as it occurs in `getFreePort`'s
loop condition `if (isPortFree(port)) break;`. The call is not awaited, so the
expression evaluates to the Promise object itself, regardless of `env`. -/
def isPortFreeUnawaited (_env : BindEnv) (_port : JsNum) : JsTestVal :=
  JsTestVal.promiseObj

/-- Numeric value of a list of decimal digit characters. -/
def digitsToNat (ds : List Char) : Nat :=
  ds.foldl (fun a c => a * 10 + (c.toNat - 48)) 0

/-- Embedding of JavaScript `parseInt(s, 10)`: skip leading whitespace, read
an optional sign, then a maximal run of decimal digits; the result is NaN
(`none`) when no digit is read. -/
def parseIntBase10 (s : String) : JsNum :=
  let l := s.data.dropWhile Char.isWhitespace
  match l with
  | [] => none
  | c :: rest =>
    if c = '-' then
      match rest.takeWhile Char.isDigit with
      | [] => none
      | ds => some (-(digitsToNat ds : Int))
    else if c = '+' then
      match rest.takeWhile Char.isDigit with
      | [] => none
      | ds => some (digitsToNat ds : Int)
    else
      match l.takeWhile Char.isDigit with
      | [] => none
      | ds => some (digitsToNat ds : Int)

/-- Embedding of the loop `while (!found && attempts <= 20) { if
(isPortFree(port)) break; port++; attempts++; }` of `getFreePort`. In the
source `found` is never assigned, so the loop exits only through the `break`
or through the `attempts <= 20` bound; `remaining` counts the iterations the
bound still allows, i.e. `remaining = 21 - attempts`. `port++` on NaN stays
NaN (`Option.map`). -/
def getFreePortGo (env : BindEnv) : Nat → JsNum → JsNum
| 0, port => port
| remaining + 1, port =>
  if jsTruthy (isPortFreeUnawaited env port) then port
  else getFreePortGo env remaining (port.map (· + 1))

/-- Embedding of `getFreePort(port)`: a string input is first converted with
`parseInt(port, 10)`, then the bounded probing loop runs starting with
`attempts = 0` (so `remaining = 21`). -/
def getFreePort (env : BindEnv) (input : JsVal) : JsNum :=
  let port : JsNum :=
    match input with
    | JsVal.num n => some n
    | JsVal.str s => parseIntBase10 s
  getFreePortGo env 21 port

/-- Embedding of JavaScript number conversion (unary `+`) on a string,
restricted to the integer forms arising here: a whitespace-only string is 0,
an optional sign followed by only digits is that integer, anything else is
NaN. -/
def jsToNumber (s : String) : JsNum :=
  let l := ((s.data.dropWhile Char.isWhitespace).reverse.dropWhile Char.isWhitespace).reverse
  match l with
  | [] => some 0
  | c :: rest =>
    if c = '-' then
      if rest ≠ [] ∧ rest.all Char.isDigit then some (-(digitsToNat rest : Int)) else none
    else if c = '+' then
      if rest ≠ [] ∧ rest.all Char.isDigit then some (digitsToNat rest : Int) else none
    else
      if l.all Char.isDigit then some (digitsToNat l : Int) else none

/-- Embedding of JavaScript unary `+` on a value (`+userPort`). -/
def jsPlus : JsVal → JsNum
| JsVal.num n => some n
| JsVal.str s => jsToNumber s

/-- Embedding of template-literal interpolation of a value into a string. -/
def jsValToString : JsVal → String
| JsVal.num n => toString n
| JsVal.str s => s

/-- ServerOptions models the `options` argument of `getPort`: `options.port`
is absent (`none`), a number, or a string. -/
structure ServerOptions where
  port : Option JsVal := none

/-- Embedding of the expression
`typeof options.port === 'number' ? options.port : process.env.PORT` of
`getPort`. `envPORT` models `process.env.PORT` (a string when set). -/
def userPortOf (options : ServerOptions) (envPORT : Option String) : Option JsVal :=
  match options.port with
  | some (JsVal.num n) => some (JsVal.num n)
  | _ => envPORT.map JsVal.str

/-- Embedding of `getPort(options)`: when `userPort` is defined, probe
`+userPort` (awaited); if free, return `+userPort`; if taken, throw the
"Another process is already running" error; errors thrown by `isPortFree`
propagate. With no user port, return `await getFreePort(8080)`. -/
def getPort (env : BindEnv) (envPORT : Option String) (options : ServerOptions) :
    Except String JsNum :=
  match userPortOf options envPORT with
  | some v =>
    match isPortFree env (jsPlus v) with
    | Except.error e => Except.error e
    | Except.ok true => Except.ok (jsPlus v)
    | Except.ok false =>
      Except.error ("Another process is already running on port " ++ jsValToString v ++
        ". Please choose a different port.")
  | none => Except.ok (getFreePort env (JsVal.num 8080))

/-- IfaceRecord models one entry of `os.networkInterfaces()` for one
interface name. -/
structure IfaceRecord where
  family : String
  address : String
  internal : Bool
deriving DecidableEq, Repr

/-- NetworkInterfaces models the `os.networkInterfaces()` result: an ordered
association of interface name to its address records, in OS-reported order. -/
abbrev NetworkInterfaces := List (String × List IfaceRecord)

/-- AddrInfo models the `addr` argument of `getServerAddresses`: either a
pre-formatted string or a `net.AddressInfo` object, of which only `.port` is
read. -/
inductive AddrInfo
| str (s : String)
| info (port : Int)
deriving DecidableEq, Repr

/-- Embedding of `getServerAddresses(addr, { host, https })`. A string `addr`
is returned alone. Otherwise, a non-wildcard host yields one URL from the
explicit host. For host "0.0.0.0", the list starts with the localhost URL and
the two nested `for` loops push one URL per interface record with family
"IPv4", address different from `host`, and not internal. -/
def getServerAddresses (ifaces : NetworkInterfaces) (addr : AddrInfo) (host : String)
    (https : Bool) : List String :=
  match addr with
  | AddrInfo.str s => [s]
  | AddrInfo.info port =>
    let protocol := if https then "https:" else "http:"
    if host ≠ "0.0.0.0" then
      [protocol ++ "//" ++ host ++ ":" ++ toString port]
    else
      let addresses := [protocol ++ "//localhost:" ++ toString port]
      ifaces.foldl (fun acc nameRecs =>
        nameRecs.2.foldl (fun acc2 iface =>
          if iface.family = "IPv4" ∧ iface.address ≠ host ∧ iface.internal = false then
            acc2 ++ [protocol ++ "//" ++ iface.address ++ ":" ++ toString port]
          else acc2) acc) addresses

/-- Flat-form description of the wildcard-host address list, following the
specification's words: the localhost URL first, then one URL per OS-reported
interface address that is IPv4, not internal, and not equal to the wildcard
host, in OS-reported order, no sorting or deduplication. Stated for
comparison against `getServerAddresses`. -/
def wildcardAddressesSpec (ifaces : NetworkInterfaces) (port : Int) (https : Bool) :
    List String :=
  let protocol := if https then "https:" else "http:"
  (protocol ++ "//localhost:" ++ toString port) ::
    (ifaces.flatMap fun nameRecs => nameRecs.2).filterMap (fun iface =>
      if iface.family = "IPv4" ∧ iface.address ≠ "0.0.0.0" ∧ iface.internal = false then
        some (protocol ++ "//" ++ iface.address ++ ":" ++ toString port)
      else none)

/-- Embedding of `addTimestamp(url, time)`:
`url + (/\?/.test(url) ? '&' : '?') + 't=' + time`. The regex test is the
presence of a question-mark character anywhere in the string. -/
def addTimestamp (url : String) (time : Int) : String :=
  url ++ (if url.data.contains '?' then "&" else "?") ++ "t=" ++ toString time

/-- Environment for the C1 evaluation: port 3000 is occupied (EADDRINUSE),
every other port is free. -/
def envC1 : BindEnv := fun p => if p = some 3000 then some "EADDRINUSE" else none

/-- C1: the claim says `getFreePort` probes ports sequentially and returns the
first free one, so with 3000 occupied and 3001 free it should return 3001.
The code never awaits `isPortFree`, so the loop tests the truthiness of a
Promise object and breaks on its first iteration: `getFreePort(3000)` returns
3000, contradicting the function's own doc comment. -/
theorem getFreePort_ignores_probe_result :
    isPortFree envC1 (some 3000) = Except.ok false ∧
    isPortFree envC1 (some 3001) = Except.ok true ∧
    getFreePort envC1 (JsVal.num 3000) = some 3000 :=
  ⟨rfl, rfl, rfl⟩

/-- Environment for the C2 counterexample: all 21 ports 4000..4020 are
occupied (EADDRINUSE), every other port is free. -/
def envC2 : BindEnv := fun p =>
  match p with
  | some n => if 4000 ≤ n ∧ n ≤ 4020 then some "EADDRINUSE" else none
  | none => none

/-- C2 counterexample: with all of 4000..4020 occupied, `getFreePort(4000)`
returns 4000, not the claimed 4020. -/
theorem getFreePort_allOccupied_counterexample :
    ((List.range 21).all fun i => envC2 (some (4000 + (i : Int))) == some "EADDRINUSE") = true ∧
    getFreePort envC2 (JsVal.num 4000) = some 4000 ∧
    getFreePort envC2 (JsVal.num 4000) ≠ some 4020 := by
  refine ⟨by decide, rfl, by decide⟩

/-- C2 (amended): for every environment and integer start port P,
`getFreePort` returns exactly P (the unawaited probe promise is truthy, so
the loop exits on its first iteration); hence the result does lie in
[P, P+20], but when all 21 ports P..P+20 are occupied the function still
returns P, not P+20, and raises no error. -/
theorem getFreePort_returns_start :
    ∀ (env : BindEnv) (P : Int),
      getFreePort env (JsVal.num P) = some P ∧
      (∃ r : Int, getFreePort env (JsVal.num P) = some r ∧ P ≤ r ∧ r ≤ P + 20) := by
  intro env P
  exact ⟨rfl, P, rfl, le_refl P, by omega⟩

/-- C3: the result of `getFreePort` is independent of the OS port table: for
any two environments it is the same, and it equals the base-10 numeric parse
of the input itself (the input unchanged for a number), because the
availability check's promise is used as a truthy value rather than awaited,
so the loop exits on its first iteration in every run. -/
theorem getFreePort_env_independent :
    ∀ (env1 env2 : BindEnv) (input : JsVal),
      getFreePort env1 input = getFreePort env2 input ∧
      getFreePort env1 input =
        (match input with
         | JsVal.num n => some n
         | JsVal.str s => parseIntBase10 s) := by
  intro env1 env2 input
  cases input <;> exact ⟨rfl, rfl⟩

/-- C4: `isPortFree` returns true when the bind-then-close cycle succeeds,
returns false exactly when the bind error code is "EADDRINUSE", and
propagates any other bind error to the caller instead of reporting it as
false. -/
theorem isPortFree_cases :
    ∀ (env : BindEnv) (port : JsNum),
      (env port = none → isPortFree env port = Except.ok true) ∧
      (isPortFree env port = Except.ok false ↔ env port = some "EADDRINUSE") ∧
      (∀ code, env port = some code → code ≠ "EADDRINUSE" →
        isPortFree env port = Except.error code) := by
  intro env port
  refine ⟨?_, ?_, ?_⟩
  · intro h; simp [isPortFree, h]
  · constructor
    · intro h
      unfold isPortFree at h
      cases henv : env port with
      | none => rw [henv] at h; simp at h
      | some code =>
        rw [henv] at h
        by_cases hc : code = "EADDRINUSE"
        · rw [hc]
        · simp [hc] at h
    · intro h; simp [isPortFree, h]
  · intro code henv hcode; simp [isPortFree, henv, hcode]

/-- Witness for C4 at two concrete environments: a free port and a port
whose bind fails with a non-EADDRINUSE code. -/
theorem isPortFree_cases_witness :
    isPortFree (fun _ => none) (some 80) = Except.ok true ∧
    isPortFree (fun _ => some "EACCES") (some 80) = Except.error "EACCES" :=
  ⟨(isPortFree_cases (fun _ => none) (some 80)).1 rfl,
   (isPortFree_cases (fun _ => some "EACCES") (some 80)).2.2 "EACCES" rfl (by decide)⟩

/-- C5: when the user explicitly requested a port (via a numeric
`options.port` or via the PORT environment override) and that port is
occupied, `getPort` throws exactly "Another process is already running on
port {port}. Please choose a different port." and never falls back to
searching for a different port. -/
theorem getPort_occupied_explicit_throws :
    ∀ (env : BindEnv) (envPORT : Option String) (options : ServerOptions) (v : JsVal),
      userPortOf options envPORT = some v →
      isPortFree env (jsPlus v) = Except.ok false →
      getPort env envPORT options =
        Except.error ("Another process is already running on port " ++ jsValToString v ++
          ". Please choose a different port.") := by
  intro env envPORT options v hu hfree
  simp [getPort, hu, hfree]

/-- Environment for the C5 witness: port 9999 is occupied. -/
def envC5 : BindEnv := fun p => if p = some 9999 then some "EADDRINUSE" else none

/-- Witness for C5: requesting the occupied port 9999 throws the exact
documented message. -/
theorem getPort_occupied_explicit_throws_witness :
    getPort envC5 none ⟨some (JsVal.num 9999)⟩ =
      Except.error ("Another process is already running on port " ++
        jsValToString (JsVal.num 9999) ++ ". Please choose a different port.") ∧
    ("Another process is already running on port " ++ jsValToString (JsVal.num 9999) ++
        ". Please choose a different port.") =
      "Another process is already running on port 9999. Please choose a different port." :=
  ⟨getPort_occupied_explicit_throws envC5 none ⟨some (JsVal.num 9999)⟩
      (JsVal.num 9999) rfl rfl,
   by decide⟩

/-- C6: `getPort` treats `options.port = 0` as an explicit request, not as
unset: a numeric `options.port` (including 0) is used, otherwise the PORT
override string, otherwise there is no explicit request; and with port 0
free, `getPort` on `options.port = 0` with no override returns 0. -/
theorem getPort_zero_explicit :
    (∀ (envPORT : Option String) (n : Int),
      userPortOf ⟨some (JsVal.num n)⟩ envPORT = some (JsVal.num n)) ∧
    (∀ (options : ServerOptions) (s : String),
      (∀ n : Int, options.port ≠ some (JsVal.num n)) →
      userPortOf options (some s) = some (JsVal.str s)) ∧
    (∀ (options : ServerOptions),
      (∀ n : Int, options.port ≠ some (JsVal.num n)) →
      userPortOf options none = none) ∧
    (∀ env : BindEnv, env (some 0) = none →
      getPort env none ⟨some (JsVal.num 0)⟩ = Except.ok (some 0)) := by
  refine ⟨?_, ?_, ?_, ?_⟩
  · intro envPORT n; rfl
  · intro options s h
    cases hp : options.port with
    | none => simp [userPortOf, hp]
    | some v =>
      cases v with
      | num n => exact absurd hp (h n)
      | str t => simp [userPortOf, hp]
  · intro options h
    cases hp : options.port with
    | none => simp [userPortOf, hp]
    | some v =>
      cases v with
      | num n => exact absurd hp (h n)
      | str t => simp [userPortOf, hp]
  · intro env h
    simp [getPort, userPortOf, jsPlus, isPortFree, h]

/-- Witness for C6: a string `options.port` defers to the override, an empty
`options.port` with no override means no request, and `options.port = 0`
with port 0 free returns 0. -/
theorem getPort_zero_explicit_witness :
    userPortOf ⟨some (JsVal.str "3000")⟩ (some "4000") = some (JsVal.str "4000") ∧
    userPortOf ⟨none⟩ none = none ∧
    getPort (fun _ => none) none ⟨some (JsVal.num 0)⟩ = Except.ok (some 0) :=
  ⟨getPort_zero_explicit.2.1 ⟨some (JsVal.str "3000")⟩ "4000" (fun _ h => by simp at h),
   getPort_zero_explicit.2.2.1 ⟨none⟩ (fun _ h => by simp at h),
   getPort_zero_explicit.2.2.2 (fun _ => none) rfl⟩

/-- C7: with no explicit request (non-numeric `options.port` and PORT
override undefined), `getPort` returns the result of `getFreePort` started
at the fixed default 8080; with port 8080 free this yields 8080. -/
theorem getPort_default_8080 :
    (∀ (env : BindEnv) (options : ServerOptions),
      (∀ n : Int, options.port ≠ some (JsVal.num n)) →
      getPort env none options = Except.ok (getFreePort env (JsVal.num 8080))) ∧
    (∀ env : BindEnv, env (some 8080) = none →
      getPort env none ⟨none⟩ = Except.ok (some 8080)) := by
  constructor
  · intro env options h
    have hu : userPortOf options none = none := by
      cases hp : options.port with
      | none => simp [userPortOf, hp]
      | some v =>
        cases v with
        | num n => exact absurd hp (h n)
        | str t => simp [userPortOf, hp]
    simp [getPort, hu]
  · intro env h
    rfl

/-- Witness for C7: with everything free and no request, `getPort` delegates
to `getFreePort 8080` and returns 8080. -/
theorem getPort_default_8080_witness :
    getPort (fun _ => none) none ⟨some (JsVal.str "abc")⟩ =
      Except.ok (getFreePort (fun _ => none) (JsVal.num 8080)) ∧
    getPort (fun _ => none) none ⟨none⟩ = Except.ok (some 8080) :=
  ⟨getPort_default_8080.1 (fun _ => none) ⟨some (JsVal.str "abc")⟩ (fun _ h => by simp at h),
   getPort_default_8080.2 (fun _ => none) rfl⟩

/-- Inner loop of the wildcard branch of `getServerAddresses`, rewritten as a
`filterMap` appended to the accumulator. -/
theorem inner_foldl_eq (protocol host : String) (port : Int) :
    ∀ (recs : List IfaceRecord) (acc : List String),
      recs.foldl (fun acc2 iface =>
        if iface.family = "IPv4" ∧ iface.address ≠ host ∧ iface.internal = false then
          acc2 ++ [protocol ++ "//" ++ iface.address ++ ":" ++ toString port]
        else acc2) acc =
      acc ++ recs.filterMap (fun iface =>
        if iface.family = "IPv4" ∧ iface.address ≠ host ∧ iface.internal = false then
          some (protocol ++ "//" ++ iface.address ++ ":" ++ toString port)
        else none) := by
  intro recs
  induction recs with
  | nil => intro acc; simp
  | cons r rs ih =>
    intro acc
    by_cases h : r.family = "IPv4" ∧ r.address ≠ host ∧ r.internal = false
    · simp [h, ih, List.filterMap_cons]
    · simp [h, ih, List.filterMap_cons]

/-- Both nested loops of the wildcard branch of `getServerAddresses`,
rewritten as a flat `filterMap` over the flattened interface records. -/
theorem outer_foldl_eq (protocol host : String) (port : Int) :
    ∀ (ifaces : NetworkInterfaces) (acc : List String),
      ifaces.foldl (fun acc nameRecs =>
        nameRecs.2.foldl (fun acc2 iface =>
          if iface.family = "IPv4" ∧ iface.address ≠ host ∧ iface.internal = false then
            acc2 ++ [protocol ++ "//" ++ iface.address ++ ":" ++ toString port]
          else acc2) acc) acc =
      acc ++ (ifaces.flatMap fun nameRecs => nameRecs.2).filterMap (fun iface =>
        if iface.family = "IPv4" ∧ iface.address ≠ host ∧ iface.internal = false then
          some (protocol ++ "//" ++ iface.address ++ ":" ++ toString port)
        else none) := by
  intro ifaces
  induction ifaces with
  | nil => intro acc; simp
  | cons p ps ih =>
    intro acc
    simp only [List.foldl_cons, List.flatMap_cons, List.filterMap_append]
    rw [inner_foldl_eq, ih, List.append_assoc]

/-- C8: for the wildcard host "0.0.0.0", `getServerAddresses` returns the
localhost URL first, followed by one URL per OS-reported interface address
that is IPv4, not internal, and not equal to the wildcard host, in
OS-reported order with no sorting or deduplication (the flat-form
description `wildcardAddressesSpec`). -/
theorem getServerAddresses_wildcard :
    ∀ (ifaces : NetworkInterfaces) (port : Int) (https : Bool),
      getServerAddresses ifaces (AddrInfo.info port) "0.0.0.0" https =
        wildcardAddressesSpec ifaces port https := by
  intro ifaces port https
  have hneq : ¬ (("0.0.0.0" : String) ≠ "0.0.0.0") := by simp
  simp only [getServerAddresses, wildcardAddressesSpec, if_neg hneq]
  rw [outer_foldl_eq]
  simp

/-- C9: a string address is returned as the sole element of a one-item list;
a non-wildcard host yields exactly one URL built verbatim from the host and
port, with scheme "https:" when TLS is on and "http:" otherwise; in
particular port 3000 with host "127.0.0.1" and no TLS yields exactly
["http://127.0.0.1:3000"]. -/
theorem getServerAddresses_explicit_host :
    (∀ (ifaces : NetworkInterfaces) (s host : String) (https : Bool),
      getServerAddresses ifaces (AddrInfo.str s) host https = [s]) ∧
    (∀ (ifaces : NetworkInterfaces) (port : Int) (host : String) (https : Bool),
      host ≠ "0.0.0.0" →
      getServerAddresses ifaces (AddrInfo.info port) host https =
        [(if https then "https:" else "http:") ++ "//" ++ host ++ ":" ++ toString port]) ∧
    getServerAddresses [] (AddrInfo.info 3000) "127.0.0.1" false =
      ["http://127.0.0.1:3000"] := by
  refine ⟨?_, ?_, by decide⟩
  · intro ifaces s host https; rfl
  · intro ifaces port host https h
    simp only [getServerAddresses]
    rw [if_pos h]

/-- Witness for C9 at the concrete example from the specification. -/
theorem getServerAddresses_explicit_host_witness :
    getServerAddresses [] (AddrInfo.info 3000) "127.0.0.1" false =
      [(if false then "https:" else "http:") ++ "//" ++ "127.0.0.1" ++ ":" ++
        toString (3000 : Int)] :=
  getServerAddresses_explicit_host.2.1 [] 3000 "127.0.0.1" false (by decide)

/-- C10: `addTimestamp` is total and returns the url followed by "&t=" and
the timestamp when the url contains a question mark anywhere, and the url
followed by "?t=" and the timestamp otherwise; it performs no URL validation
beyond testing for the question mark. -/
theorem addTimestamp_cases :
    (∀ (url : String) (time : Int),
      (url.data.contains '?' = true →
        addTimestamp url time = url ++ "&t=" ++ toString time) ∧
      (url.data.contains '?' = false →
        addTimestamp url time = url ++ "?t=" ++ toString time)) ∧
    addTimestamp "http://x/y" 5 = "http://x/y?t=5" ∧
    addTimestamp "http://x/y?a=1" 5 = "http://x/y?a=1&t=5" := by
  refine ⟨?_, by decide, by decide⟩
  intro url time
  constructor
  · intro h
    simp only [addTimestamp]
    rw [if_pos h, String.append_assoc url "&" "t="]
    rfl
  · intro h
    simp only [addTimestamp]
    rw [if_neg (by simpa using h), String.append_assoc url "?" "t="]
    rfl

/-- Witness for C10 at a url with and a url without a question mark. -/
theorem addTimestamp_cases_witness :
    addTimestamp "http://x/y?a=1" 5 = "http://x/y?a=1" ++ "&t=" ++ toString (5 : Int) ∧
    addTimestamp "http://x/y" 5 = "http://x/y" ++ "?t=" ++ toString (5 : Int) :=
  ⟨(addTimestamp_cases.1 "http://x/y?a=1" 5).1 (by decide),
   (addTimestamp_cases.1 "http://x/y" 5).2 (by decide)⟩

end NetUtils
